import Mathlib

/-!
Shallow embedding of `tcconfig/traffic_control.py` (module `traffic_control`),
with the collaborators that are not part of the source tree (`run_command_helper`,
`TrafficDirection`, the shaper, the iptables controller) modelled from the design
spec at their interface boundary.  Machine integers are `Nat`/`Int` with explicit
`% 2^32` where the Python code relies on 32-bit wraparound (inside MD5);
Python floats are modelled as `ℚ`; fallible Python code returns `Except`.
-/

namespace Tcconfig

/-! ### MD5 (model of `hashlib.md5`)

`TrafficControl.__get_device_qdisc_major_id` calls `hashlib.md5(six.b(device))
.hexdigest()[:3]`.  `hashlib` is the Python standard library, so we embed the
MD5 algorithm itself (RFC 1321): all words are `Nat` reduced `% 2^32`, the
message is a list of byte values. -/

/-- The word modulus of MD5, 2^32. -/
def w32 : Nat := 4294967296

/-- Left-rotation of a 32-bit word (operand assumed `< 2^32`). -/
def rotl32 (x n : Nat) : Nat := ((x <<< n) ||| (x >>> (32 - n))) % w32

/-- Bitwise complement within 32 bits. -/
def not32 (x : Nat) : Nat := 4294967295 ^^^ x

/-- The 64 MD5 sine-derived constants `K[i] = floor(2^32 * |sin(i+1)|)`. -/
def md5K : List Nat :=
  [0xd76aa478, 0xe8c7b756, 0x242070db, 0xc1bdceee,
   0xf57c0faf, 0x4787c62a, 0xa8304613, 0xfd469501,
   0x698098d8, 0x8b44f7af, 0xffff5bb1, 0x895cd7be,
   0x6b901122, 0xfd987193, 0xa679438e, 0x49b40821,
   0xf61e2562, 0xc040b340, 0x265e5a51, 0xe9b6c7aa,
   0xd62f105d, 0x02441453, 0xd8a1e681, 0xe7d3fbc8,
   0x21e1cde6, 0xc33707d6, 0xf4d50d87, 0x455a14ed,
   0xa9e3e905, 0xfcefa3f8, 0x676f02d9, 0x8d2a4c8a,
   0xfffa3942, 0x8771f681, 0x6d9d6122, 0xfde5380c,
   0xa4beea44, 0x4bdecfa9, 0xf6bb4b60, 0xbebfbc70,
   0x289b7ec6, 0xeaa127fa, 0xd4ef3085, 0x04881d05,
   0xd9d4d039, 0xe6db99e5, 0x1fa27cf8, 0xc4ac5665,
   0xf4292244, 0x432aff97, 0xab9423a7, 0xfc93a039,
   0x655b59c3, 0x8f0ccc92, 0xffeff47d, 0x85845dd1,
   0x6fa87e4f, 0xfe2ce6e0, 0xa3014314, 0x4e0811a1,
   0xf7537e82, 0xbd3af235, 0x2ad7d2bb, 0xeb86d391]

/-- The 64 per-round left-rotation amounts of MD5. -/
def md5shift : List Nat :=
  [7, 12, 17, 22, 7, 12, 17, 22, 7, 12, 17, 22, 7, 12, 17, 22,
   5, 9, 14, 20, 5, 9, 14, 20, 5, 9, 14, 20, 5, 9, 14, 20,
   4, 11, 16, 23, 4, 11, 16, 23, 4, 11, 16, 23, 4, 11, 16, 23,
   6, 10, 15, 21, 6, 10, 15, 21, 6, 10, 15, 21, 6, 10, 15, 21]

/-- The `i`-th little-endian 32-bit word of a 64-byte chunk. -/
def chunkWord (chunk : List Nat) (i : Nat) : Nat :=
  chunk.getD (4 * i) 0 +
  chunk.getD (4 * i + 1) 0 * 256 +
  chunk.getD (4 * i + 2) 0 * 65536 +
  chunk.getD (4 * i + 3) 0 * 16777216

/-- One of the 64 MD5 rounds: state `(a, b, c, d)`, round index `i`,
message chunk `chunk`. -/
def md5Round (chunk : List Nat) (st : Nat × Nat × Nat × Nat) (i : Nat) :
    Nat × Nat × Nat × Nat :=
  let (a, b, c, d) := st
  let fg : Nat × Nat :=
    if i < 16 then ((b &&& c) ||| (not32 b &&& d), i)
    else if i < 32 then ((d &&& b) ||| (not32 d &&& c), (5 * i + 1) % 16)
    else if i < 48 then (b ^^^ c ^^^ d, (3 * i + 5) % 16)
    else (c ^^^ (b ||| not32 d), (7 * i) % 16)
  let f := (fg.1 + a + md5K.getD i 0 + chunkWord chunk fg.2) % w32
  (d, (b + rotl32 f (md5shift.getD i 0)) % w32, b, c)

/-- Process one 64-byte chunk, updating the four accumulator words. -/
def md5Chunk (acc : Nat × Nat × Nat × Nat) (chunk : List Nat) :
    Nat × Nat × Nat × Nat :=
  let (a0, b0, c0, d0) := acc
  let (a, b, c, d) := (List.range 64).foldl (md5Round chunk) (a0, b0, c0, d0)
  ((a0 + a) % w32, (b0 + b) % w32, (c0 + c) % w32, (d0 + d) % w32)

/-- MD5 padding: append `0x80`, zero bytes up to 56 mod 64, then the original
bit length as a 64-bit little-endian quantity. -/
def md5Pad (msg : List Nat) : List Nat :=
  let len := msg.length
  let zeros := (120 - (len + 1) % 64) % 64
  let bitLen := 8 * len
  msg ++ [0x80] ++ List.replicate zeros 0 ++
    [bitLen % 256, bitLen / 256 % 256, bitLen / 65536 % 256,
     bitLen / 16777216 % 256, bitLen / 4294967296 % 256,
     bitLen / 1099511627776 % 256, bitLen / 281474976710656 % 256,
     bitLen / 72057594037927936 % 256]

/-- Serialize a 32-bit word to its four little-endian bytes. -/
def wordBytes (x : Nat) : List Nat :=
  [x % 256, x / 256 % 256, x / 65536 % 256, x / 16777216 % 256]

/-- The four 32-bit accumulator words after processing all chunks of the
padded message, starting from the standard MD5 initialization vector. -/
def md5Words (msg : List Nat) : Nat × Nat × Nat × Nat :=
  let padded := md5Pad msg
  (List.range (padded.length / 64)).foldl
    (fun acc i => md5Chunk acc ((padded.drop (64 * i)).take 64))
    (0x67452301, 0xefcdab89, 0x98badcfe, 0x10325476)

/-- The 16-byte MD5 digest of a byte string: the four accumulator words
serialized little-endian. -/
def md5Bytes (msg : List Nat) : List Nat :=
  wordBytes (md5Words msg).1 ++ wordBytes (md5Words msg).2.1 ++
  wordBytes (md5Words msg).2.2.1 ++ wordBytes (md5Words msg).2.2.2

/-- Two lowercase hex characters of a byte (Python's `%02x` per digest byte). -/
def byteHexChars (b : Nat) : List Char :=
  [Nat.digitChar (b / 16 % 16), Nat.digitChar (b % 16)]

/-- Model of `hashlib.md5(msg).hexdigest()`: 32 lowercase hex characters. -/
def md5Hexdigest (msg : List Nat) : List Char :=
  (md5Bytes msg).flatMap byteHexChars

/-- Byte encoding of a device-name string (`six.b`). -/
def strBytes (s : String) : List Nat :=
  s.toUTF8.toList.map (fun b => b.toNat)

/-- Numeric value of one hexadecimal character (`int(·, 16)` per digit). -/
def hexVal (c : Char) : Nat :=
  if '0' ≤ c ∧ c ≤ '9' then c.toNat - 48
  else if 'a' ≤ c ∧ c ≤ 'f' then c.toNat - 87
  else if 'A' ≤ c ∧ c ≤ 'F' then c.toNat - 55
  else 0

/-- Value of `int(s, 16)` over a list of hex characters. -/
def hexToNat (cs : List Char) : Nat :=
  cs.foldl (fun acc c => 16 * acc + hexVal c) 0

/-- Embedding of `TrafficControl.__get_device_qdisc_major_id`: first 3 hex digits of the
MD5 hexdigest of the device name, prefixed with the constant digit `"1"`,
read as a hexadecimal integer. -/
def get_device_qdisc_major_id (device : String) : Nat :=
  hexToNat ('1' :: (md5Hexdigest (strBytes device)).take 3)

/-! ### Traffic direction

Modelled from the spec: the `TrafficDirection` constants live in
`tcconfig/_traffic_direction.py`, which is not part of the source tree; the
spec's §3 enum is `{OUTGOING, INCOMING}`.  `traffic_control.py` compares
`self.direction` with `==` against the constants and concatenates it into an
error message string, so the constants are strings. -/

/-- Modelled from the spec: `TrafficDirection.OUTGOING`. -/
def OUTGOING : String := "outgoing"

/-- Modelled from the spec: `TrafficDirection.INCOMING`. -/
def INCOMING : String := "incoming"

/-! ### Errors

Each constructor corresponds to one distinct raise site / exception class of
the Python module: `tooHigh`/`tooLow` are the two `ValueError`s of
`_validate_within_min_max` (carrying the parameter name, violated bound and
offending value exactly as the message does), `emptyParameter` is
`EmptyParameterError`, `invalidParameter` is `InvalidParameterError`,
`noEffectiveParameter` is the `ValueError` of `__validate_netem_parameter`,
`unknownDirection` is the `ValueError` of `get_tc_device`,
`networkInterfaceNotFound` is `NetworkInterfaceNotFoundError`, and
`unboundLocal` is Python's `UnboundLocalError` (an uninitialized local
variable read). -/
inductive TcError
  | tooHigh (param : String) (bound value : ℚ)
  | tooLow (param : String) (bound value : ℚ)
  | emptyParameter (msg : String)
  | invalidParameter (msg : String)
  | noEffectiveParameter
  | unknownDirection (direction : String)
  | networkInterfaceNotFound (device : String)
  | unboundLocal (varName : String)
  deriving DecidableEq, Repr

/-! ### Data model -/

/-- The `TrafficControl` object's fields after `__init__`.  Optional float
parameters are `Option ℚ`; `bandwidth_rate` holds the already-parsed
kilobyte value (`__init__` sets it to `None` when the human-readable string
does not parse).  `dataproperty.FloatType(v).is_type()` is `v.isSome` on this
representation. -/
structure TrafficControl where
  device : String
  direction : String
  bandwidth_rate : Option ℚ := none
  latency_ms : Option ℚ := none
  latency_distro_ms : Option ℚ := none
  packet_loss_rate : Option ℚ := none
  corruption_rate : Option ℚ := none
  network : Option String := none
  src_network : Option String := none
  port : Option ℚ := none
  is_enable_iptables : Bool := true
  deriving DecidableEq, Repr

/-- The constant `__NETEM_QDISC_MAJOR_ID_OFFSET`. -/
def NETEM_QDISC_MAJOR_ID_OFFSET : Nat := 10

/-- The `qdisc_major_id` property (set in `__init__` from
`__get_device_qdisc_major_id`). -/
def TrafficControl.qdisc_major_id (tc : TrafficControl) : Nat :=
  get_device_qdisc_major_id tc.device

/-- The `ifb_device` property: `"ifb{:d}".format(self.__qdisc_major_id)`. -/
def TrafficControl.ifb_device (tc : TrafficControl) : String :=
  "ifb" ++ toString tc.qdisc_major_id

/-- Embedding of `TrafficControl.get_tc_device`: physical device for OUTGOING, the ifb
redirect device for INCOMING, `ValueError("unknown direction: " + direction)`
otherwise. -/
def TrafficControl.get_tc_device (tc : TrafficControl) : Except TcError String :=
  if tc.direction = OUTGOING then .ok tc.device
  else if tc.direction = INCOMING then .ok tc.ifb_device
  else .error (.unknownDirection tc.direction)

/-- Embedding of `TrafficControl.get_netem_qdisc_major_id`: assigns `direction_offset` in
the OUTGOING and INCOMING branches only; with any other direction the local
variable is read uninitialized (`UnboundLocalError` in Python). -/
def TrafficControl.get_netem_qdisc_major_id (tc : TrafficControl)
    (base_id : Nat) : Except TcError Nat := do
  let direction_offset ←
    if tc.direction = OUTGOING then pure 0
    else if tc.direction = INCOMING then pure 1
    else Except.error (TcError.unboundLocal "direction_offset")
  pure (base_id + NETEM_QDISC_MAJOR_ID_OFFSET + direction_offset)

/-- The spec's §4.2 `identifierFor(device, direction)`: the base id derived
from the device name, offset by direction as in
`get_netem_qdisc_major_id`. -/
def identifierFor (device direction : String) : Except TcError Nat :=
  TrafficControl.get_netem_qdisc_major_id
    { device := device, direction := direction }
    (get_device_qdisc_major_id device)

/-! ### Parameter validation -/

/-- Embedding of `_validate_within_min_max`: skip `None`, reject strictly above the upper
bound first, then strictly below the lower bound; boundary values pass. -/
def _validate_within_min_max (param : String) (value : Option ℚ)
    (min_value max_value : ℚ) : Except TcError Unit :=
  match value with
  | none => .ok ()
  | some v =>
    if v > max_value then .error (.tooHigh param max_value v)
    else if v < min_value then .error (.tooLow param min_value v)
    else .ok ()

/-- The constants `MIN_PACKET_LOSS_RATE` / `MAX_PACKET_LOSS_RATE`. -/
def MIN_PACKET_LOSS_RATE : ℚ := 0
def MAX_PACKET_LOSS_RATE : ℚ := 100

/-- The constants `MIN_LATENCY_MS` / `MAX_LATENCY_MS`. -/
def MIN_LATENCY_MS : ℚ := 0
def MAX_LATENCY_MS : ℚ := 10000

/-- The constants `MIN_CORRUPTION_RATE` / `MAX_CORRUPTION_RATE`. -/
def MIN_CORRUPTION_RATE : ℚ := 0
def MAX_CORRUPTION_RATE : ℚ := 100

/-- The constants `__MIN_PORT` / `__MAX_PORT`. -/
def MIN_PORT : ℚ := 0
def MAX_PORT : ℚ := 65535

/-- Embedding of `TrafficControl.validate_bandwidth_rate`. -/
def TrafficControl.validate_bandwidth_rate (tc : TrafficControl) :
    Except TcError Unit :=
  match tc.bandwidth_rate with
  | none => .error (.emptyParameter "bandwidth_rate is empty")
  | some r =>
    if r ≤ 0 then
      .error (.invalidParameter
        ("rate must be greater than zero: actual=" ++ toString r))
    else .ok ()

/-- Embedding of `TrafficControl.__validate_network_delay`. -/
def TrafficControl.validate_network_delay (tc : TrafficControl) :
    Except TcError Unit := do
  _validate_within_min_max "latency_ms" tc.latency_ms
    MIN_LATENCY_MS MAX_LATENCY_MS
  _validate_within_min_max "latency_distro_ms" tc.latency_distro_ms
    MIN_LATENCY_MS MAX_LATENCY_MS

/-- Embedding of `TrafficControl.__validate_packet_loss_rate`. -/
def TrafficControl.validate_packet_loss_rate (tc : TrafficControl) :
    Except TcError Unit :=
  _validate_within_min_max "packet_loss_rate" tc.packet_loss_rate
    MIN_PACKET_LOSS_RATE MAX_PACKET_LOSS_RATE

/-- Embedding of `TrafficControl.__validate_corruption_rate`. -/
def TrafficControl.validate_corruption_rate (tc : TrafficControl) :
    Except TcError Unit :=
  _validate_within_min_max "corruption_rate" tc.corruption_rate
    MIN_CORRUPTION_RATE MAX_CORRUPTION_RATE

/-- Embedding of `TrafficControl.__validate_port`. -/
def TrafficControl.validate_port (tc : TrafficControl) :
    Except TcError Unit :=
  _validate_within_min_max "port" tc.port MIN_PORT MAX_PORT

/-- Embedding of `TrafficControl.__validate_netem_parameter`: `validate_bandwidth_rate`
with `EmptyParameterError` swallowed by the `try`/`except` (all other errors
propagate), then delay, loss and corruption bounds, then the
no-effective-parameter check over the four rate-affecting fields
(`not FloatType(value).is_type() or value == 0` for each). -/
def TrafficControl.validate_netem_parameter (tc : TrafficControl) :
    Except TcError Unit := do
  match tc.validate_bandwidth_rate with
  | .error (TcError.emptyParameter _) => pure ()
  | .error e => Except.error e
  | .ok _ => pure ()
  tc.validate_network_delay
  tc.validate_packet_loss_rate
  tc.validate_corruption_rate
  if [tc.bandwidth_rate, tc.latency_ms, tc.packet_loss_rate,
      tc.corruption_rate].all
      (fun value => !value.isSome || decide (value = some 0)) then
    Except.error TcError.noEffectiveParameter
  else
    pure ()

/-! ### Configure (`set_tc` / `__setup_ifb`)

`set_tc` runs `__setup_ifb()` and then `self.__shaper.set_shaping()`.  The
shaper (`TbfShaper`) is outside the source tree; per the spec's §4.4/§6 it is
a delegation boundary receiving the target device resolved by direction.  We
model the external effects of `set_tc` as an ordered event trace. -/

/-- Lowercase hexadecimal rendering of a `Nat` (Python's `"{:x}".format`). -/
def natHexStr (n : Nat) : String := String.mk (Nat.toDigits 16 n)

/-- An externally visible step of `set_tc`: a dispatched command line, or the
delegation to the shaper collaborator against its target device. -/
inductive Event
  | cmd (line : String)
  | shaperInvoke (target : String)
  deriving DecidableEq, Repr

/-- Embedding of `TrafficControl.__setup_ifb`, parameterized by the exit code the host
reports for each dispatched command line (`SubprocessRunner` /
`run_command_helper`, the §6 CommandRunner boundary).  Returns the function's
return value (the bitwise OR of the dispatched commands' codes, as the
Python `return_code |= ...` accumulates) together with the dispatched
command lines, in order.  Not INCOMING: returns 0 immediately, issuing
nothing; an empty ifb device name: returns -1, issuing nothing; otherwise
the five commands (modprobe, link add, link up, ingress qdisc add, mirred
redirect filter).  The filter's `flowid` is the hex of the freshly computed
base major id. -/
def TrafficControl.setup_ifb (tc : TrafficControl) (runCode : String → Int) :
    Int × List String :=
  if tc.direction ≠ INCOMING then (0, [])
  else if tc.ifb_device = "" then (-1, [])
  else
    let cmds :=
      ["modprobe ifb",
       "ip link add " ++ tc.ifb_device ++ " type ifb",
       "ip link set dev " ++ tc.ifb_device ++ " up",
       "tc qdisc add dev " ++ tc.device ++ " ingress",
       "tc filter add dev " ++ tc.device ++
         " parent ffff: protocol ip u32 match u32 0 0 flowid " ++
         natHexStr (get_device_qdisc_major_id tc.device) ++
         ": action mirred egress redirect dev " ++ tc.ifb_device]
    (cmds.foldl (fun acc c => Int.lor acc (runCode c)) 0, cmds)

/-- The event trace of `TrafficControl.set_tc`: the `__setup_ifb` commands
first (their accumulated return code is ignored by `set_tc`), then the
shaper delegation.  Modelled from the spec: the shaper's target device is
resolved by direction (`get_tc_device`), per §4.4 and the §6 `applyShaping`
boundary. -/
def TrafficControl.set_tc_trace (tc : TrafficControl) (runCode : String → Int) :
    Except TcError (List Event) := do
  let setup := (tc.setup_ifb runCode).2
  let target ← tc.get_tc_device
  pure (setup.map Event.cmd ++ [Event.shaperInvoke target])

/-! ### Teardown (`delete_tc` / `__delete_ifb_device`)

`run_command_helper` and `SubprocessRunner` live outside the source tree
(`_common.py` / the `subprocrunner` package); the spec's §6 CommandRunner
boundary fixes their contract: each invocation yields an exit code, and
stderr matching the per-command benign pattern is mapped to a successful
outcome.  We therefore parameterize teardown by an environment holding the
exit code each such call reports, plus whether the host interface lookup of
the ifb device succeeds and whether the iptables mangle-rule clearing
actually removed rules. -/

/-- Outcomes the host reports to one `delete_tc` run: exit codes of the five
dispatched commands (already filtered through the benign-pattern mapping for
the two `run_command_helper` calls), whether `verify_network_interface` finds
the ifb device, and whether `IptablesMangleController.clear()` removed any
mangle rule (its outcome is not observed by `delete_tc`). -/
structure TeardownEnv where
  rootDelCode : Int
  ingressDelCode : Int
  ifbExists : Bool
  ifbRootDelCode : Int
  ifbDownCode : Int
  ifbDeleteCode : Int
  mangleRulesCleared : Bool
  deriving DecidableEq, Repr

/-- The four top-level steps `delete_tc` dispatches, in source order. -/
inductive TeardownStep
  | delRootQdisc
  | delIngressQdisc
  | delIfbDevice
  | clearMangleRules
  deriving DecidableEq, Repr

/-- Embedding of `TrafficControl.__delete_ifb_device`: verify the ifb interface exists
(raising `NetworkInterfaceNotFoundError` otherwise), dispatch all three
removal commands, and return 2 when every one of them failed, else 0. -/
def TrafficControl.delete_ifb_device (_tc : TrafficControl)
    (env : TeardownEnv) : Except TcError Int :=
  if env.ifbExists then
    if env.ifbRootDelCode ≠ 0 ∧ env.ifbDownCode ≠ 0 ∧ env.ifbDeleteCode ≠ 0
    then .ok 2
    else .ok 0
  else .error (.networkInterfaceNotFound "ifb device")

/-- Embedding of `TrafficControl.delete_tc`: append `returncode == 0` for the root-qdisc
and ingress-qdisc deletions, append the ifb-device deletion outcome (with
`NetworkInterfaceNotFoundError` caught, logged and recorded as `False`),
call `IptablesMangleController.clear()` without capturing its outcome, and
return `any(result_list)`.  The second component records the steps
dispatched, in order. -/
def TrafficControl.delete_tc (tc : TrafficControl) (env : TeardownEnv) :
    Except TcError (Bool × List TeardownStep) := do
  let r1 := decide (env.rootDelCode = 0)
  let r2 := decide (env.ingressDelCode = 0)
  let r3 ← match tc.delete_ifb_device env with
    | .error (TcError.networkInterfaceNotFound _) => pure false
    | .error e => Except.error e
    | .ok code => pure (decide (code = 0))
  pure (r1 || r2 || r3,
    [TeardownStep.delRootQdisc, TeardownStep.delIngressQdisc,
     TeardownStep.delIfbDevice, TeardownStep.clearMangleRules])

/-- Modelled from the spec: the environment a never-configured (or already
cleaned) host presents to `delete_tc`.  Every deletion command fails with the
"no such file or directory" / "invalid argument" pattern, which the §6
CommandRunner boundary maps to a successful/benign outcome (exit code 0);
the ifb device does not exist; no mangle rules get removed. -/
def cleanHostEnv : TeardownEnv :=
  { rootDelCode := 0, ingressDelCode := 0, ifbExists := false,
    ifbRootDelCode := 0, ifbDownCode := 0, ifbDeleteCode := 0,
    mangleRulesCleared := false }

/-! ### Concrete inputs used below -/

/-- A spec whose four rate-affecting fields are all absent except the
bandwidth rate, which is present and zero. -/
def zeroBandwidthSpec : TrafficControl :=
  { device := "eth0", direction := OUTGOING, bandwidth_rate := some 0 }

/-- A spec with an absent bandwidth rate and an effective 50 ms latency. -/
def absentBandwidthSpec : TrafficControl :=
  { device := "eth0", direction := OUTGOING, latency_ms := some 50 }

/-- An INCOMING 50 ms latency spec on `eth0` (the spec's scenario B). -/
def incomingLatencySpec : TrafficControl :=
  { device := "eth0", direction := INCOMING, latency_ms := some 50 }

/-- A spec with every emulation parameter absent. -/
def allAbsentSpec : TrafficControl :=
  { device := "eth0", direction := OUTGOING }

/-- A teardown environment in which every deletion step fails outright (no
qdisc present, no ifb device, nonzero exit codes) while the firewall
mangle-rule clearing does remove state. -/
def allStepsFailEnv : TeardownEnv :=
  { rootDelCode := 2, ingressDelCode := 2, ifbExists := false,
    ifbRootDelCode := 1, ifbDownCode := 1, ifbDeleteCode := 1,
    mangleRulesCleared := true }

end Tcconfig

namespace Tcconfig

/-! ## Helper lemmas -/

/-- Every hex character the digest serialization produces has value below 16. -/
lemma hexVal_digitChar_le (n : Nat) : hexVal (Nat.digitChar (n % 16)) ≤ 15 := by
  have h : n % 16 < 16 := Nat.mod_lt n (by norm_num)
  set m := n % 16 with hm
  interval_cases m <;> decide

/-- The first three characters of an MD5 hexdigest, explicitly. -/
lemma md5Hexdigest_take_three (msg : List Nat) :
    (md5Hexdigest msg).take 3 =
      [Nat.digitChar ((md5Words msg).1 % 256 / 16 % 16),
       Nat.digitChar ((md5Words msg).1 % 256 % 16),
       Nat.digitChar ((md5Words msg).1 / 256 % 256 / 16 % 16)] := by
  simp [md5Hexdigest, md5Bytes, wordBytes, byteHexChars]

/-- The bounds validator never produces the empty-parameter error. -/
lemma wv_never_empty (p : String) (v : Option ℚ) (lo hi : ℚ) (m : String) :
    _validate_within_min_max p v lo hi ≠
      Except.error (TcError.emptyParameter m) := by
  rcases v with _ | x
  · simp [_validate_within_min_max]
  · simp only [_validate_within_min_max]
    split_ifs <;> simp

/-- Sequencing preserves never-returning-the-empty-parameter-error. -/
lemma bind_ne_empty {a : Except TcError Unit} {f : Unit → Except TcError Unit}
    (ha : ∀ m, a ≠ Except.error (TcError.emptyParameter m))
    (hf : ∀ m, f () ≠ Except.error (TcError.emptyParameter m)) :
    ∀ m, (a >>= f) ≠ Except.error (TcError.emptyParameter m) := by
  intro m
  cases a with
  | error e => exact ha m
  | ok u => cases u; exact hf m

/-- Evaluation of `delete_tc`: always `Except.ok`, dispatching all four steps in
order; the overall flag is the OR of the three aggregated step outcomes
(root qdisc deletion, ingress qdisc deletion, ifb-device deletion), and does
not depend on `mangleRulesCleared`. -/
lemma delete_tc_eq (tc : TrafficControl) (env : TeardownEnv) :
    tc.delete_tc env = Except.ok
      ((decide (env.rootDelCode = 0) || decide (env.ingressDelCode = 0) ||
        (env.ifbExists &&
          (decide (env.ifbRootDelCode = 0) || decide (env.ifbDownCode = 0) ||
           decide (env.ifbDeleteCode = 0)))),
       [TeardownStep.delRootQdisc, TeardownStep.delIngressQdisc,
        TeardownStep.delIfbDevice, TeardownStep.clearMangleRules]) := by
  by_cases h1 : env.ifbRootDelCode = 0 <;> by_cases h2 : env.ifbDownCode = 0 <;>
    by_cases h3 : env.ifbDeleteCode = 0 <;> by_cases hex : env.ifbExists <;>
      simp [TrafficControl.delete_tc, TrafficControl.delete_ifb_device,
        h1, h2, h3, hex] <;> rfl

/-- The ifb redirect-device name is never the empty string. -/
lemma ifb_device_ne_empty (tc : TrafficControl) : tc.ifb_device ≠ "" := by
  intro h
  have hlen := congrArg String.length h
  simp [TrafficControl.ifb_device, String.length_append] at hlen
  exact absurd hlen.1 (by decide)

/-! ## Claim theorems -/

/-- C1: the qdisc identifier is a pure function of the device name and
direction (the embedding is a function, so repeated invocations agree by
definition), and the INCOMING identifier is exactly the OUTGOING identifier
plus one: the base id is offset by the +10 `__NETEM_QDISC_MAJOR_ID_OFFSET`
plus 0 for OUTGOING and 1 for INCOMING. -/
theorem identifier_incoming_eq_outgoing_succ (d : String) :
    identifierFor d INCOMING = (identifierFor d OUTGOING).map (fun n => n + 1) ∧
    identifierFor d OUTGOING =
      Except.ok (get_device_qdisc_major_id d + NETEM_QDISC_MAJOR_ID_OFFSET + 0) ∧
    identifierFor d INCOMING =
      Except.ok (get_device_qdisc_major_id d + NETEM_QDISC_MAJOR_ID_OFFSET + 1) :=
  ⟨rfl, rfl, rfl⟩

/-- C8: the base qdisc identifier derivation is total over device-name
strings (it is a plain function of the name) and always yields a well-formed
nonzero major id in `[0x1000, 0x1fff]`, because it reads the constant digit
`'1'` followed by the first 3 hex digits of the MD5 hexdigest as a
hexadecimal integer. -/
theorem device_qdisc_major_id_range (device : String) :
    4096 ≤ get_device_qdisc_major_id device ∧
    get_device_qdisc_major_id device ≤ 8191 ∧
    get_device_qdisc_major_id device ≠ 0 := by
  have h3 := md5Hexdigest_take_three (strBytes device)
  have e1 := hexVal_digitChar_le ((md5Words (strBytes device)).1 % 256 / 16)
  have e2 := hexVal_digitChar_le ((md5Words (strBytes device)).1 % 256)
  have e3 := hexVal_digitChar_le ((md5Words (strBytes device)).1 / 256 % 256 / 16)
  unfold get_device_qdisc_major_id
  rw [h3]
  simp only [hexToNat, List.foldl]
  have h1 : hexVal '1' = 1 := by decide
  rw [h1]
  omega

/-- C9: device-to-target resolution returns the physical device for
OUTGOING, the redirect device `"ifb" ++ <decimal major id>` for INCOMING,
and raises the unknown-direction `ValueError` for every other direction
value. -/
theorem get_tc_device_resolution (tc : TrafficControl) :
    (tc.direction = OUTGOING → tc.get_tc_device = Except.ok tc.device) ∧
    (tc.direction = INCOMING →
      tc.get_tc_device =
        Except.ok ("ifb" ++ toString (get_device_qdisc_major_id tc.device))) ∧
    (tc.direction ≠ OUTGOING → tc.direction ≠ INCOMING →
      tc.get_tc_device = Except.error (.unknownDirection tc.direction)) := by
  refine ⟨fun h => ?_, fun h => ?_, fun h1 h2 => ?_⟩
  · simp [TrafficControl.get_tc_device, h]
  · simp [TrafficControl.get_tc_device, h, INCOMING, OUTGOING,
      TrafficControl.ifb_device, TrafficControl.qdisc_major_id]
  · simp [TrafficControl.get_tc_device, h1, h2]

/-- C9 witness: an unrecognized direction value yields the unknown-direction
error. -/
theorem get_tc_device_resolution_witness :
    ({ device := "eth0", direction := "both" } : TrafficControl).get_tc_device =
      Except.error (.unknownDirection "both") :=
  (get_tc_device_resolution { device := "eth0", direction := "both" }).2.2
    (by decide) (by decide)

/-- C10: `get_netem_qdisc_major_id` is not total in the direction: for any
direction other than OUTGOING and INCOMING the local `direction_offset` is
read uninitialized (Python's `UnboundLocalError`), which is not the
documented unknown-direction `ValueError` that `get_tc_device` raises. -/
theorem netem_qdisc_major_id_unbound_local (tc : TrafficControl)
    (base_id : Nat) (h1 : tc.direction ≠ OUTGOING)
    (h2 : tc.direction ≠ INCOMING) :
    tc.get_netem_qdisc_major_id base_id =
      Except.error (.unboundLocal "direction_offset") ∧
    ∀ d, tc.get_netem_qdisc_major_id base_id ≠
      Except.error (.unknownDirection d) := by
  unfold TrafficControl.get_netem_qdisc_major_id
  rw [if_neg h1, if_neg h2]
  exact ⟨rfl, fun d h => by simp at h⟩

/-- C10 witness: a direction value outside the enum hits the uninitialized
local. -/
theorem netem_qdisc_major_id_unbound_local_witness :
    ({ device := "eth0", direction := "both" } : TrafficControl).get_netem_qdisc_major_id 4096 =
      Except.error (.unboundLocal "direction_offset") :=
  (netem_qdisc_major_id_unbound_local { device := "eth0", direction := "both" }
    4096 (by decide) (by decide)).1

/-- C5: for every present bounded parameter the validator accepts the
boundary values inclusively, rejects values outside the bound with an error
naming the field, the violated bound and the offending value, and skips an
absent field; the percentage fields use [0,100], the latency fields
[0,10000], the port [0,65535]; concretely 0 and 10000 pass the latency bound
while 10000.1 and -0.1 fail it. -/
theorem validate_bounds (p : String) (lo hi v : ℚ) (tc : TrafficControl) :
    _validate_within_min_max p none lo hi = Except.ok () ∧
    (lo ≤ v → v ≤ hi →
      _validate_within_min_max p (some v) lo hi = Except.ok ()) ∧
    (hi < v →
      _validate_within_min_max p (some v) lo hi =
        Except.error (.tooHigh p hi v)) ∧
    (v < lo → v ≤ hi →
      _validate_within_min_max p (some v) lo hi =
        Except.error (.tooLow p lo v)) ∧
    tc.validate_packet_loss_rate =
      _validate_within_min_max "packet_loss_rate" tc.packet_loss_rate 0 100 ∧
    tc.validate_corruption_rate =
      _validate_within_min_max "corruption_rate" tc.corruption_rate 0 100 ∧
    tc.validate_port = _validate_within_min_max "port" tc.port 0 65535 ∧
    tc.validate_network_delay = (do
      _validate_within_min_max "latency_ms" tc.latency_ms 0 10000
      _validate_within_min_max "latency_distro_ms" tc.latency_distro_ms 0 10000) ∧
    _validate_within_min_max "latency_ms" (some 0) 0 10000 = Except.ok () ∧
    _validate_within_min_max "latency_ms" (some 10000) 0 10000 = Except.ok () ∧
    _validate_within_min_max "latency_ms" (some 10000.1) 0 10000 =
      Except.error (.tooHigh "latency_ms" 10000 10000.1) ∧
    _validate_within_min_max "latency_ms" (some (-0.1)) 0 10000 =
      Except.error (.tooLow "latency_ms" 0 (-0.1)) := by
  refine ⟨rfl, fun h1 h2 => ?_, fun h => ?_, fun h1 h2 => ?_,
    rfl, rfl, rfl, rfl, ?_, ?_, ?_, ?_⟩
  · rw [_validate_within_min_max, if_neg (not_lt.mpr h2), if_neg (not_lt.mpr h1)]
  · rw [_validate_within_min_max, if_pos h]
  · rw [_validate_within_min_max, if_neg (not_lt.mpr h2), if_pos h1]
  · norm_num [_validate_within_min_max]
  · norm_num [_validate_within_min_max]
  · norm_num [_validate_within_min_max]
  · norm_num [_validate_within_min_max]

/-- C5 witness: the packet-loss boundary value 100 is accepted. -/
theorem validate_bounds_witness :
    _validate_within_min_max "packet_loss_rate" (some 100) 0 100 =
      Except.ok () :=
  (validate_bounds "packet_loss_rate" 0 100 100
      { device := "eth0", direction := OUTGOING }).2.1
    (by norm_num) (by norm_num)

/-- C4 counterexample: a spec whose four rate-affecting fields are all
absent or zero but whose bandwidth rate is present-and-zero fails with the
`InvalidParameterError` of `validate_bandwidth_rate` (which the
`try`/`except` does not catch), not with the no-effective-parameter
`ValueError`. -/
theorem validate_zero_bandwidth_counterexample :
    zeroBandwidthSpec.bandwidth_rate = some 0 ∧
    zeroBandwidthSpec.latency_ms = none ∧
    zeroBandwidthSpec.packet_loss_rate = none ∧
    zeroBandwidthSpec.corruption_rate = none ∧
    zeroBandwidthSpec.validate_netem_parameter =
      Except.error
        (.invalidParameter "rate must be greater than zero: actual=0") ∧
    zeroBandwidthSpec.validate_netem_parameter ≠
      Except.error TcError.noEffectiveParameter := by
  have hv : zeroBandwidthSpec.validate_netem_parameter =
      Except.error
        (.invalidParameter "rate must be greater than zero: actual=0") := by
    rfl
  exact ⟨rfl, rfl, rfl, rfl, hv, by rw [hv]; simp⟩

/-- C4 (amended): validation fails with the no-effective-parameter error
when the bandwidth rate is absent and the latency, packet-loss and
corruption rates are each absent or zero (and the jitter field, when
present, passes its bound); a present-but-zero bandwidth rate instead fails
earlier with `InvalidParameterError`. -/
theorem validate_no_effective_parameter (tc : TrafficControl)
    (hb : tc.bandwidth_rate = none)
    (hl : tc.latency_ms = none ∨ tc.latency_ms = some 0)
    (hp : tc.packet_loss_rate = none ∨ tc.packet_loss_rate = some 0)
    (hc : tc.corruption_rate = none ∨ tc.corruption_rate = some 0)
    (hd : tc.latency_distro_ms = none ∨
      ∃ v, tc.latency_distro_ms = some v ∧ 0 ≤ v ∧ v ≤ 10000) :
    tc.validate_netem_parameter = Except.error TcError.noEffectiveParameter := by
  have hbw : tc.validate_bandwidth_rate =
      Except.error (TcError.emptyParameter "bandwidth_rate is empty") := by
    simp [TrafficControl.validate_bandwidth_rate, hb]
  have h1 : _validate_within_min_max "latency_ms" tc.latency_ms
      MIN_LATENCY_MS MAX_LATENCY_MS = Except.ok () := by
    rcases hl with h | h <;>
      norm_num [h, _validate_within_min_max, MIN_LATENCY_MS, MAX_LATENCY_MS]
  have h2 : _validate_within_min_max "latency_distro_ms" tc.latency_distro_ms
      MIN_LATENCY_MS MAX_LATENCY_MS = Except.ok () := by
    rcases hd with h | ⟨v, h, hv0, hv1⟩
    · simp [h, _validate_within_min_max]
    · have hmax : ¬ v > MAX_LATENCY_MS := by
        simp only [MAX_LATENCY_MS, not_lt]; exact hv1
      have hmin : ¬ v < MIN_LATENCY_MS := by
        simp only [MIN_LATENCY_MS, not_lt]; exact hv0
      simp only [h, _validate_within_min_max]
      rw [if_neg hmax, if_neg hmin]
  have hnd : tc.validate_network_delay = Except.ok () := by
    unfold TrafficControl.validate_network_delay
    rw [h1]
    exact h2
  have h3 : tc.validate_packet_loss_rate = Except.ok () := by
    rcases hp with h | h <;>
      norm_num [TrafficControl.validate_packet_loss_rate, h,
        _validate_within_min_max, MIN_PACKET_LOSS_RATE, MAX_PACKET_LOSS_RATE]
  have h4 : tc.validate_corruption_rate = Except.ok () := by
    rcases hc with h | h <;>
      norm_num [TrafficControl.validate_corruption_rate, h,
        _validate_within_min_max, MIN_CORRUPTION_RATE, MAX_CORRUPTION_RATE]
  rcases hl with hl | hl <;> rcases hp with hp | hp <;> rcases hc with hc | hc <;>
    (unfold TrafficControl.validate_netem_parameter
     rw [hbw, hnd, h3, h4, hb, hl, hp, hc]
     rfl)

/-- C4 witness: a spec with every parameter absent is rejected as a no-op
configuration. -/
theorem validate_no_effective_parameter_witness :
    allAbsentSpec.validate_netem_parameter =
      Except.error TcError.noEffectiveParameter :=
  validate_no_effective_parameter allAbsentSpec rfl (Or.inl rfl) (Or.inl rfl)
    (Or.inl rfl) (Or.inl rfl)

/-- C7 counterexample: a spec with an absent bandwidth rate (and an
effective latency) passes full netem validation, because
`__validate_netem_parameter` catches the `EmptyParameterError`; full
validation therefore does not fail with the empty-parameter error on an
absent bandwidth rate. -/
theorem validate_absent_bandwidth_counterexample :
    absentBandwidthSpec.bandwidth_rate = none ∧
    absentBandwidthSpec.validate_netem_parameter = Except.ok () :=
  ⟨rfl, rfl⟩

/-- C7 (amended): `validate_bandwidth_rate` fails with the empty-parameter
error whenever the bandwidth rate is absent (this is the error the shaper
sees when it references the rate), while `__validate_netem_parameter`
swallows that error: it never surfaces an empty-parameter failure for any
spec. -/
theorem bandwidth_rate_empty_parameter :
    (∀ tc : TrafficControl, tc.bandwidth_rate = none →
      tc.validate_bandwidth_rate =
        Except.error (TcError.emptyParameter "bandwidth_rate is empty")) ∧
    (∀ (tc : TrafficControl) (m : String),
      tc.validate_netem_parameter ≠
        Except.error (TcError.emptyParameter m)) := by
  constructor
  · intro tc h
    simp [TrafficControl.validate_bandwidth_rate, h]
  · intro tc m
    have hrest : ∀ m, ((do
        tc.validate_network_delay
        tc.validate_packet_loss_rate
        tc.validate_corruption_rate
        if [tc.bandwidth_rate, tc.latency_ms, tc.packet_loss_rate,
            tc.corruption_rate].all
            (fun value => !value.isSome || decide (value = some 0)) then
          Except.error TcError.noEffectiveParameter
        else
          pure ()) : Except TcError Unit) ≠
        Except.error (TcError.emptyParameter m) := by
      apply bind_ne_empty
      · intro m1
        unfold TrafficControl.validate_network_delay
        exact bind_ne_empty (fun m2 => wv_never_empty _ _ _ _ m2)
          (fun m2 => wv_never_empty _ _ _ _ m2) m1
      apply bind_ne_empty
      · exact fun m1 => wv_never_empty _ _ _ _ m1
      apply bind_ne_empty
      · exact fun m1 => wv_never_empty _ _ _ _ m1
      intro m1
      split_ifs with hcond
      · exact fun h => TcError.noConfusion (Except.error.inj h)
      · exact fun h => Except.noConfusion h
    unfold TrafficControl.validate_netem_parameter
    cases hbw : tc.validate_bandwidth_rate with
    | ok u => exact hrest m
    | error e =>
      cases e
      case emptyParameter msg => exact hrest m
      all_goals exact fun h => TcError.noConfusion (Except.error.inj h)

/-- C7 witness: the absent-bandwidth spec makes `validate_bandwidth_rate`
raise the empty-parameter error. -/
theorem bandwidth_rate_empty_parameter_witness :
    absentBandwidthSpec.validate_bandwidth_rate =
      Except.error (TcError.emptyParameter "bandwidth_rate is empty") :=
  bandwidth_rate_empty_parameter.1 absentBandwidthSpec rfl

/-- C2 counterexample: with every aggregated deletion step failing outright
but the firewall mangle-rule clearing removing state, `delete_tc` still
reports overall failure — the firewall step's outcome is not part of the
OR-aggregation, contradicting the claim that success is reported whenever
any of the four steps removed state. -/
theorem delete_tc_ignores_mangle_outcome :
    allStepsFailEnv.mangleRulesCleared = true ∧
    ({ device := "eth0", direction := OUTGOING } : TrafficControl).delete_tc
        allStepsFailEnv =
      Except.ok (false,
        [TeardownStep.delRootQdisc, TeardownStep.delIngressQdisc,
         TeardownStep.delIfbDevice, TeardownStep.clearMangleRules]) :=
  ⟨rfl, rfl⟩

/-- C2 (amended): `delete_tc` aggregates with logical OR the outcomes of
the three steps it records — root egress qdisc removal, ingress qdisc
removal, and redirect-device deletion — and reports overall failure exactly
when those three all failed; the firewall mangle-rule clearing is executed
as the fourth step but its outcome is not included in the aggregation. -/
theorem delete_tc_aggregation (tc : TrafficControl) (env : TeardownEnv) :
    tc.delete_tc env = Except.ok
      ((decide (env.rootDelCode = 0) || decide (env.ingressDelCode = 0) ||
        (env.ifbExists &&
          (decide (env.ifbRootDelCode = 0) || decide (env.ifbDownCode = 0) ||
           decide (env.ifbDeleteCode = 0)))),
       [TeardownStep.delRootQdisc, TeardownStep.delIngressQdisc,
        TeardownStep.delIfbDevice, TeardownStep.clearMangleRules]) :=
  delete_tc_eq tc env

/-- C6: teardown never raises — for every environment (including a missing
redirect device and failing commands) `delete_tc` returns `Except.ok` and
dispatches all four steps in order regardless of earlier failures; on a
never-configured (or already-cleaned) host it returns a benign overall
status, so a second back-to-back call does not fail either. -/
theorem delete_tc_tolerant :
    (∀ (tc : TrafficControl) (env : TeardownEnv), ∃ removed,
      tc.delete_tc env = Except.ok (removed,
        [TeardownStep.delRootQdisc, TeardownStep.delIngressQdisc,
         TeardownStep.delIfbDevice, TeardownStep.clearMangleRules])) ∧
    (∀ tc : TrafficControl,
      tc.delete_tc cleanHostEnv = Except.ok (true,
        [TeardownStep.delRootQdisc, TeardownStep.delIngressQdisc,
         TeardownStep.delIfbDevice, TeardownStep.clearMangleRules])) := by
  constructor
  · exact fun tc env => ⟨_, delete_tc_eq tc env⟩
  · intro tc
    rw [delete_tc_eq]
    rfl

/-- C3: on INCOMING, `set_tc` dispatches the ifb-module-load, ifb-create,
ifb-up, ingress-qdisc-add and mirred-redirect-filter commands, in that
order, before delegating to the shaper against the redirect device; on
OUTGOING the redirect-device setup is a no-op returning success and the
shaper targets the physical device. -/
theorem set_tc_redirect_setup (tc : TrafficControl) (runCode : String → Int) :
    (tc.direction = INCOMING →
      tc.set_tc_trace runCode = Except.ok
        [Event.cmd "modprobe ifb",
         Event.cmd ("ip link add " ++ tc.ifb_device ++ " type ifb"),
         Event.cmd ("ip link set dev " ++ tc.ifb_device ++ " up"),
         Event.cmd ("tc qdisc add dev " ++ tc.device ++ " ingress"),
         Event.cmd ("tc filter add dev " ++ tc.device ++
           " parent ffff: protocol ip u32 match u32 0 0 flowid " ++
           natHexStr (get_device_qdisc_major_id tc.device) ++
           ": action mirred egress redirect dev " ++ tc.ifb_device),
         Event.shaperInvoke tc.ifb_device]) ∧
    (tc.direction = OUTGOING →
      tc.setup_ifb runCode = (0, []) ∧
      tc.set_tc_trace runCode = Except.ok [Event.shaperInvoke tc.device]) := by
  constructor
  · intro h
    unfold TrafficControl.set_tc_trace TrafficControl.setup_ifb
      TrafficControl.get_tc_device
    rw [h]
    rw [if_neg (by simp : ¬ INCOMING ≠ INCOMING),
      if_neg (ifb_device_ne_empty tc),
      if_neg (by decide : ¬ INCOMING = OUTGOING),
      if_pos (rfl : INCOMING = INCOMING)]
    rfl
  · intro h
    have hs : tc.setup_ifb runCode = (0, []) := by
      unfold TrafficControl.setup_ifb
      rw [h]
      exact if_pos (by decide)
    refine ⟨hs, ?_⟩
    unfold TrafficControl.set_tc_trace TrafficControl.get_tc_device
    rw [hs, h, if_pos (rfl : OUTGOING = OUTGOING)]
    rfl

/-- C3 witness: the spec's scenario B — an INCOMING latency spec on `eth0`
issues the five redirect-setup commands in order, then the shaper call
against the redirect device. -/
theorem set_tc_redirect_setup_witness :
    incomingLatencySpec.set_tc_trace (fun _ => 0) = Except.ok
      [Event.cmd "modprobe ifb",
       Event.cmd ("ip link add " ++ incomingLatencySpec.ifb_device ++
         " type ifb"),
       Event.cmd ("ip link set dev " ++ incomingLatencySpec.ifb_device ++
         " up"),
       Event.cmd ("tc qdisc add dev " ++ incomingLatencySpec.device ++
         " ingress"),
       Event.cmd ("tc filter add dev " ++ incomingLatencySpec.device ++
         " parent ffff: protocol ip u32 match u32 0 0 flowid " ++
         natHexStr (get_device_qdisc_major_id incomingLatencySpec.device) ++
         ": action mirred egress redirect dev " ++
         incomingLatencySpec.ifb_device),
       Event.shaperInvoke incomingLatencySpec.ifb_device] :=
  (set_tc_redirect_setup incomingLatencySpec (fun _ => 0)).1 rfl

end Tcconfig
